import Mathlib

/-!
Verification of the provider resolution, adapter dispatch, health monitoring
and configuration editing subsystem of the `ccs` repository.

The TypeScript sources are shallowly embedded: JavaScript strings become
`String` (or `List Char` where character-level reasoning is needed), JS
objects used as string-keyed maps become association lists with first-key
lookup and in-place update, optional/nullable values become `Option`, and
the ambient effects (filesystem, environment variables, network fetch,
clock) become explicit fields of a record passed to the embedded function.
JS truthiness on optional strings (`undefined` and `""` are falsy) is
modelled by `jsTruthy`.
-/

set_option linter.unusedVariables false

/-- JS truthiness of an optional string: `undefined`/absent and the empty
string are falsy, every other string is truthy. -/
def jsTruthy : Option String → Bool
  | none => false
  | some s => s ≠ ""

/-- JS `a || b` on an optional string `a` with string default `b`:
falls back to the default when `a` is absent or empty. -/
def jsOr (a : Option String) (b : String) : String :=
  match a with
  | none => b
  | some s => if s = "" then b else s

/-- JS object property assignment `obj[k] = v` on a string-keyed map
modelled as an association list: the first entry with key `k` is updated
in place, otherwise the pair is appended at the end (JS objects keep
insertion order and update in place). -/
def aset {α : Type} : List (String × α) → String → α → List (String × α)
  | [], k, v => [(k, v)]
  | (k₀, v₀) :: t, k, v =>
      if k₀ = k then (k, v) :: t else (k₀, v₀) :: aset t k v

theorem lookup_aset_eq {α : Type} (h : List (String × α)) (k₀ k : String) (v₀ : α) :
    (aset h k₀ v₀).lookup k = if k == k₀ then some v₀ else h.lookup k := by
  induction h with
  | nil =>
      by_cases hk : k = k₀ <;>
        simp [aset, List.lookup, hk, beq_false_of_ne]
  | cons hd t ih =>
      obtain ⟨k₁, v₁⟩ := hd
      by_cases h₁ : k₁ = k₀
      · subst h₁
        by_cases hk : k = k₁ <;>
          simp [aset, List.lookup, hk, beq_false_of_ne]
      · by_cases hk : k = k₁
        · subst hk
          simp [aset, List.lookup, Ne.symm h₁, h₁, beq_false_of_ne]
        · simp [aset, List.lookup, h₁, hk, ih, beq_false_of_ne]

theorem lookup_append_assoc {α : Type} (a b : List (String × α)) (k : String) :
    (a ++ b).lookup k =
      (match a.lookup k with
       | some v => some v
       | none => b.lookup k) := by
  induction a with
  | nil => simp [List.lookup]
  | cons hd t ih =>
      obtain ⟨k₁, v₁⟩ := hd
      by_cases hk : k = k₁ <;>
        simp [List.lookup, hk, ih, beq_false_of_ne]

/-- JS `Object.assign(base, extras)` / object spread `{ ...base, ...extras }`
restricted to string-keyed maps: every entry of `extras` is assigned into
`base`, in order, so a later entry with the same key wins. -/
def amerge {α : Type} (base extras : List (String × α)) : List (String × α) :=
  extras.foldl (fun acc kv => aset acc kv.1 kv.2) base

theorem lookup_amerge {α : Type} (extras : List (String × α)) :
    ∀ (base : List (String × α)) (k : String),
      (amerge base extras).lookup k =
        (match extras.reverse.lookup k with
         | some v => some v
         | none => base.lookup k) := by
  induction extras with
  | nil => intro base k; simp [amerge, List.lookup]
  | cons hd t ih =>
      intro base k
      obtain ⟨k₀, v₀⟩ := hd
      have step : amerge base ((k₀, v₀) :: t) = amerge (aset base k₀ v₀) t := rfl
      rw [step, ih]
      have hrev : ((k₀, v₀) :: t).reverse = t.reverse ++ [(k₀, v₀)] := by simp
      rw [hrev, lookup_append_assoc]
      cases htr : t.reverse.lookup k with
      | some v => simp
      | none =>
          simp only []
          rw [lookup_aset_eq]
          by_cases hk : k = k₀ <;>
            simp [List.lookup, hk, beq_false_of_ne]

/-! ## Provider resolver (src/router/providers/resolver) -/

/-- The `type` discriminant of a `ResolvedProvider`. -/
inductive ProviderType
  | cliproxy
  | settings
  | api
  deriving DecidableEq

/-- A resolved provider descriptor, as produced by `getProvider`. -/
structure ResolvedProvider where
  name : String
  type : ProviderType
  adapter : String
  baseUrl : String
  authToken : Option String := none
  headers : Option (List (String × String)) := none
  deriving DecidableEq

/-- A remote-API provider entry of the router configuration
(`ApiProviderConfig`). -/
structure ApiProviderConfig where
  base_url : String
  auth_env : String
  adapter : String
  headers : Option (List (String × String)) := none
  deriving DecidableEq

/-- The `env` object of a credential-profile settings file, restricted to
the two well-known fields the resolver reads. -/
structure SettingsEnv where
  anthropicBaseUrl : Option String := none
  anthropicAuthToken : Option String := none
  deriving DecidableEq

/-- The parsed JSON of a credential-profile settings file. -/
structure SettingsJson where
  env : Option SettingsEnv := none
  deriving DecidableEq

/-- The ambient state read by the resolver: the unified config's
credential-profile map (`profiles`), the router config's remote-API
provider map (`providers`), the filesystem, the JSON parser result per
path (`none` models a `JSON.parse` throw), the process environment, and
tilde expansion of paths. -/
structure Sys where
  profiles : Option (List (String × String)) := none
  providers : Option (List (String × ApiProviderConfig)) := none
  fileExists : String → Bool
  readParse : String → Option SettingsJson
  procEnv : String → Option String
  expandPath : String → String

/-- Hardcoded CLIProxy provider list (`CLIPROXY_PROVIDER_LIST`). -/
def CLIPROXY_PROVIDER_LIST : List String :=
  ["agy", "gemini", "codex", "qwen", "iflow", "kiro", "ghcp"]

/-- CLIProxyAPI base URL (`CLIPROXY_BASE_URL`). -/
def CLIPROXY_BASE_URL : String := "http://127.0.0.1:8317"

/-- `isCLIProxyProvider`: membership in the hardcoded list. -/
def isCLIProxyProvider (name : String) : Bool :=
  CLIPROXY_PROVIDER_LIST.contains name

/-- `resolveCLIProxyProvider`. -/
def resolveCLIProxyProvider (name : String) : ResolvedProvider :=
  { name := name
    type := ProviderType.cliproxy
    adapter := "anthropic"
    baseUrl := CLIPROXY_BASE_URL ++ "/api/provider/" ++ name ++ "/v1" }

/-- Optional-chaining lookup `unifiedConfig?.profiles?.[name]`, restricted
to the `settings` path stored in the profile entry. -/
def profileLookup (sys : Sys) (name : String) : Option String :=
  sys.profiles.bind (fun m => m.lookup name)

/-- Optional-chaining lookup `config?.providers?.[name]`. -/
def providerLookup (sys : Sys) (name : String) : Option ApiProviderConfig :=
  sys.providers.bind (fun m => m.lookup name)

/-- `resolveSettingsProfile`: looks the name up in the credential-profile
map, reads and parses the referenced settings file, and extracts
`ANTHROPIC_BASE_URL` (with public default) and `ANTHROPIC_AUTH_TOKEN`.
Returns `none` when the name is not a profile, the file is missing
(`existsSync` false), or parsing throws. -/
def resolveSettingsProfile (sys : Sys) (name : String) : Option ResolvedProvider :=
  match profileLookup sys name with
  | none => none
  | some settings =>
      let settingsPath := sys.expandPath settings
      if sys.fileExists settingsPath then
        match sys.readParse settingsPath with
        | none => none
        | some parsed =>
            let env := parsed.env.getD {}
            some
              { name := name
                type := ProviderType.settings
                adapter := "anthropic"
                baseUrl := jsOr env.anthropicBaseUrl "https://api.anthropic.com/v1"
                authToken := env.anthropicAuthToken }
      else none

/-- `resolveApiProvider`: reads the auth token from the configured
environment variable (absence gives `authToken = none`). -/
def resolveApiProvider (sys : Sys) (name : String) (config : ApiProviderConfig) :
    ResolvedProvider :=
  { name := name
    type := ProviderType.api
    adapter := config.adapter
    baseUrl := config.base_url
    authToken := sys.procEnv config.auth_env
    headers := config.headers }

/-- `getProvider`: priority 1. CLIProxy hardcoded, 2. settings profiles,
3. API providers from the router config. -/
def getProvider (sys : Sys) (name : String) : Option ResolvedProvider :=
  if isCLIProxyProvider name then
    some (resolveCLIProxyProvider name)
  else
    match resolveSettingsProfile sys name with
    | some settingsProvider => some settingsProvider
    | none =>
        match providerLookup sys name with
        | some apiConfig => some (resolveApiProvider sys name apiConfig)
        | none => none

/-- `getAllProviders`: pushes the CLIProxy providers, then every
credential-profile name that resolves (silently dropping the ones that do
not), then every remote-API provider entry. -/
def getAllProviders (sys : Sys) : List ResolvedProvider :=
  let cliproxy := CLIPROXY_PROVIDER_LIST.map resolveCLIProxyProvider
  let settings :=
    match sys.profiles with
    | some m => (m.map (fun kv => kv.1)).filterMap (fun n => resolveSettingsProfile sys n)
    | none => []
  let api :=
    match sys.providers with
    | some m => m.map (fun kv => resolveApiProvider sys kv.1 kv.2)
    | none => []
  cliproxy ++ settings ++ api

/-! ## Anthropic passthrough adapter (src/router/adapters/anthropic) -/

/-- `baseUrl.replace(/\/+$/, '')`: remove the maximal run of trailing
slashes, at character-list level. -/
def stripSlashes (l : List Char) : List Char :=
  (l.reverse.dropWhile (fun c => c == '/')).reverse

/-- `AnthropicAdapter.getEndpoint` at character-list level: strip trailing
slashes, then append `/messages` if the base already ends in `/v1`,
otherwise append `/v1/messages`. -/
def getEndpointL (base : List Char) : List Char :=
  let baseUrl := stripSlashes base
  if "/v1".toList <:+ baseUrl then baseUrl ++ "/messages".toList
  else baseUrl ++ "/v1/messages".toList

/-- `AnthropicAdapter.getEndpoint`. -/
def AnthropicAdapter.getEndpoint (p : ResolvedProvider) : String :=
  String.mk (getEndpointL p.baseUrl.toList)

/-- Reference endpoint function written from the specification text:
"strip all trailing slashes from `descriptor.baseUrl`; if the stripped
base already ends in `/v1` return it followed by `/messages`, otherwise
return it followed by `/v1/messages`".  Trailing-slash stripping is
transcribed directly as end-of-string recursion. -/
def specStrip (l : List Char) : List Char :=
  match h : l.getLast? with
  | none => l
  | some c => if c = '/' then specStrip l.dropLast else l
termination_by l.length
decreasing_by
  have hne : l ≠ [] := by
    intro he
    subst he
    simp at h
  have hp : 0 < l.length := List.length_pos.mpr hne
  simp [List.length_dropLast]
  omega

/-- Reference definition of the endpoint, following the spec's words. -/
def endpointSpec (p : ResolvedProvider) : String :=
  let b := specStrip p.baseUrl.toList
  String.mk (if "/v1".toList <:+ b then b ++ "/messages".toList else b ++ "/v1/messages".toList)

theorem specStrip_reverse (r : List Char) :
    specStrip r.reverse = (r.dropWhile (fun c => c == '/')).reverse := by
  induction r with
  | nil => simp [specStrip]
  | cons c r' ih =>
      have hrev : (c :: r').reverse = r'.reverse ++ [c] := by simp
      rw [hrev, specStrip]
      split
      next h => simp at h
      next c₁ h =>
        have hc₁ : c₁ = c := by
          rw [List.getLast?_concat] at h
          exact (Option.some.inj h).symm
        subst hc₁
        by_cases hc : c₁ = '/'
        · simp [hc, List.dropLast_concat, ih, List.dropWhile]
        · have hb : (c₁ == '/') = false := beq_eq_false_iff_ne.mpr hc
          simp [hc, List.dropWhile, hb]

theorem specStrip_eq_stripSlashes (l : List Char) : specStrip l = stripSlashes l := by
  have h := specStrip_reverse l.reverse
  rw [List.reverse_reverse] at h
  exact h

/-- `AnthropicAdapter.getHeaders`: content-type header, conditional bearer
authorization header, then `Object.assign` with the descriptor's extra
headers. -/
def AnthropicAdapter.getHeaders (p : ResolvedProvider) : List (String × String) :=
  let headers : List (String × String) := [("Content-Type", "application/json")]
  let headers :=
    if jsTruthy p.authToken then
      aset headers "Authorization" ("Bearer " ++ p.authToken.getD "")
    else headers
  amerge headers (p.headers.getD [])

/-! ### Infix decomposition over an append, used for the endpoint claim -/

theorem infix_split {α : Type} (t a s : List α) (h : t <:+: a ++ s) :
    t <:+: a ∨ t <:+: s ∨
      ∃ n, 0 < n ∧ n < t.length ∧ t.take n <:+ a ∧ t.drop n <+: s := by
  obtain ⟨u, v, huv⟩ := h
  by_cases h1 : u.length + t.length ≤ a.length
  · left
    have ha : a = (u ++ t ++ v).take a.length := by
      rw [huv]
      simp
    have hux : (u ++ t).length ≤ a.length := by simp; omega
    have : (u ++ t ++ v).take a.length =
        (u ++ t) ++ v.take (a.length - (u ++ t).length) := by
      rw [show u ++ t ++ v = (u ++ t) ++ v from rfl,
        List.take_append_eq_append_take, List.take_of_length_le hux]
    refine ⟨u, v.take (a.length - (u ++ t).length), ?_⟩
    rw [this] at ha
    exact ha.symm
  · by_cases h2 : a.length ≤ u.length
    · right; left
      have hs : s = (u ++ (t ++ v)).drop a.length := by
        rw [show u ++ (t ++ v) = u ++ t ++ v by simp, huv]
        simp
      rw [List.drop_append_eq_append_drop,
        show a.length - u.length = 0 by omega, List.drop_zero] at hs
      exact ⟨u.drop a.length, v, by rw [List.append_assoc]; exact hs.symm⟩
    · right; right
      refine ⟨a.length - u.length, by omega, by omega, ?_, ?_⟩
      · have ha : a = (u ++ t ++ v).take a.length := by
          rw [huv]; simp
        rw [show u ++ t ++ v = (u ++ t) ++ v from rfl,
          List.take_append_eq_append_take,
          show a.length - (u ++ t).length = 0 by simp; omega,
          List.take_zero, List.append_nil,
          List.take_append_eq_append_take,
          List.take_of_length_le (by omega : u.length ≤ a.length)] at ha
        exact ⟨u, ha.symm⟩
      · have hs : s = (u ++ (t ++ v)).drop a.length := by
          rw [show u ++ (t ++ v) = u ++ t ++ v by simp, huv]
          simp
        rw [List.drop_append_eq_append_drop,
          List.drop_eq_nil_of_le (by omega : u.length ≤ a.length),
          List.nil_append, List.drop_append_eq_append_drop,
          show a.length - u.length - t.length = 0 by omega,
          List.drop_zero] at hs
        exact ⟨v, hs.symm⟩

theorem no_pat_append (pat b suf : List Char)
    (hb : ¬ pat <:+: b) (hsuf : ¬ pat <:+: suf)
    (hcross : ∀ n, 0 < n → n < pat.length → pat.drop n <+: suf → ¬ pat.take n <:+ b) :
    ¬ pat <:+: b ++ suf := by
  intro h
  rcases infix_split pat b suf h with h1 | h2 | ⟨n, hn0, hnl, hta, htd⟩
  · exact hb h1
  · exact hsuf h2
  · exact hcross n hn0 hnl htd hta

theorem stripSlashes_isPrefix (l : List Char) : stripSlashes l <+: l := by
  obtain ⟨u, hu⟩ := List.dropWhile_suffix (l := l.reverse) (fun c => c == '/')
  refine ⟨u.reverse, ?_⟩
  show (l.reverse.dropWhile (fun c => c == '/')).reverse ++ u.reverse = l
  rw [← List.reverse_append, hu, List.reverse_reverse]

theorem no_dup_branch1 (b : List Char) (hb : ¬ "/v1/v1".toList <:+: b) :
    ¬ "/v1/v1/".toList <:+: b ++ "/messages".toList := by
  apply no_pat_append
  · intro hcon
    exact hb ((List.IsPrefix.isInfix (by decide :
      "/v1/v1".toList <+: "/v1/v1/".toList)).trans hcon)
  · decide
  · intro n hn0 hnl hdrop htake
    have h7 : n < 7 := by
      have : ("/v1/v1/".toList).length = 7 := by decide
      omega
    interval_cases n
    · exact absurd hdrop (by decide)
    · exact absurd hdrop (by decide)
    · exact absurd hdrop (by decide)
    · exact absurd hdrop (by decide)
    · exact absurd hdrop (by decide)
    · have h6 : ("/v1/v1/".toList).take 6 = "/v1/v1".toList := by decide
      rw [h6] at htake
      exact hb htake.isInfix

theorem no_dup_branch2 (b : List Char) (hb : ¬ "/v1/v1".toList <:+: b)
    (hv : ¬ "/v1".toList <:+ b) :
    ¬ "/v1/v1/".toList <:+: b ++ "/v1/messages".toList := by
  apply no_pat_append
  · intro hcon
    exact hb ((List.IsPrefix.isInfix (by decide :
      "/v1/v1".toList <+: "/v1/v1/".toList)).trans hcon)
  · decide
  · intro n hn0 hnl hdrop htake
    have h7 : n < 7 := by
      have : ("/v1/v1/".toList).length = 7 := by decide
      omega
    interval_cases n
    · exact absurd hdrop (by decide)
    · exact absurd hdrop (by decide)
    · have h3 : ("/v1/v1/".toList).take 3 = "/v1".toList := by decide
      rw [h3] at htake
      exact hv htake
    · exact absurd hdrop (by decide)
    · exact absurd hdrop (by decide)
    · have h6 : ("/v1/v1/".toList).take 6 = "/v1/v1".toList := by decide
      rw [h6] at htake
      exact hb htake.isInfix

theorem getEndpointL_no_dup (base : List Char) (h : ¬ "/v1/v1".toList <:+: base) :
    ¬ "/v1/v1/".toList <:+: getEndpointL base := by
  have hpre := stripSlashes_isPrefix base
  have h' : ¬ "/v1/v1".toList <:+: stripSlashes base := fun hc => h (hc.trans hpre.isInfix)
  show ¬ "/v1/v1/".toList <:+:
    (if "/v1".toList <:+ stripSlashes base then stripSlashes base ++ "/messages".toList
     else stripSlashes base ++ "/v1/messages".toList)
  by_cases hv : "/v1".toList <:+ stripSlashes base
  · rw [if_pos hv]
    exact no_dup_branch1 _ h'
  · rw [if_neg hv]
    exact no_dup_branch2 _ h' hv

/-! ## Health monitor (src/router/providers/health.ts) -/

/-- Health cache TTL: 30 seconds, in milliseconds (`CACHE_TTL`). -/
def CACHE_TTL : Nat := 30 * 1000

/-- A health verdict (`ProviderHealthResult`). Timestamps are epoch
milliseconds. -/
structure ProviderHealthResult where
  provider : String
  healthy : Bool
  latency : Nat
  error : Option String := none
  checkedAt : Nat
  deriving DecidableEq

/-- The outcome of the `fetch` call of a health check: either an HTTP
response with its status code and reason phrase, or a thrown error
(network failure, or the 5-second `AbortSignal.timeout` firing) carrying
its message.  The `catch` block of the source treats a timeout abort
exactly like any other thrown error, so a single constructor models
both. -/
inductive FetchOutcome
  | success (status : Nat) (statusText : String)
  | failure (message : String)
  deriving DecidableEq

/-- The ambient state of one health check call: the clock, the result of
probing the CLIProxy port (`getPortProcess` + `isCLIProxyProcess`),
elapsed wall-clock of that probe, the auth-status collaborator's answer
for this provider, and the fetch outcome with its elapsed time. -/
structure HealthEnv where
  now : Nat
  portProbe : Bool
  probeElapsed : Nat := 0
  authenticated : Bool
  fetchOutcome : FetchOutcome := FetchOutcome.failure ""
  fetchElapsed : Nat := 0
  deriving DecidableEq

/-- The shared CLIProxy port sub-cache (`cliproxyPortHealthy`,
`cliproxyPortCheckedAt`); `none` models `null`. -/
structure PortCache where
  portHealthy : Option Bool := none
  portCheckedAt : Option Nat := none
  deriving DecidableEq

/-- `checkCLIProxyProviderHealth`: refresh the shared port sub-cache when
it is unset or older than the TTL, then combine the port status with the
auth status.  Returns the record and the updated port sub-cache. -/
def checkCLIProxyProviderHealth (env : HealthEnv) (pc : PortCache) (p : ResolvedProvider) :
    ProviderHealthResult × PortCache :=
  let refresh : Bool :=
    match pc.portHealthy, pc.portCheckedAt with
    | some _, some t => decide (CACHE_TTL < env.now - t)
    | _, _ => true
  let portHealthy : Bool := if refresh then env.portProbe else pc.portHealthy.getD false
  let pc' : PortCache :=
    if refresh then { portHealthy := some env.portProbe, portCheckedAt := some env.now }
    else pc
  let latency := env.probeElapsed
  if !portHealthy then
    ({ provider := p.name, healthy := false, latency := latency,
       error := some "CLIProxy not running", checkedAt := env.now }, pc')
  else if !env.authenticated then
    ({ provider := p.name, healthy := false, latency := latency,
       error := some "Not authenticated", checkedAt := env.now }, pc')
  else
    ({ provider := p.name, healthy := true, latency := latency, checkedAt := env.now }, pc')

/-- `checkApiProviderHealth`: GET `baseUrl ++ "/models"`; `response.ok`
(status 200-299) is healthy, other statuses produce an error string with
the status code and reason phrase, and a thrown error (network failure or
timeout) is caught and returned as an unhealthy record with the error's
message.  The function is total: no outcome escapes as an exception. -/
def checkApiProviderHealth (env : HealthEnv) (p : ResolvedProvider) : ProviderHealthResult :=
  match env.fetchOutcome with
  | FetchOutcome.success status statusText =>
      if 200 ≤ status ∧ status ≤ 299 then
        { provider := p.name, healthy := true, latency := env.fetchElapsed,
          checkedAt := env.now }
      else
        { provider := p.name, healthy := false, latency := env.fetchElapsed,
          error := some ("HTTP " ++ toString status ++ ": " ++ statusText),
          checkedAt := env.now }
  | FetchOutcome.failure message =>
      { provider := p.name, healthy := false, latency := env.fetchElapsed,
        error := some message, checkedAt := env.now }

/-- The headers object literal of the `fetch` call in
`checkApiProviderHealth`: an `Authorization` entry whose value is the
bearer token when the auth token is truthy and the empty string
otherwise, spread-merged with the descriptor's extra headers. -/
def healthRequestHeaders (p : ResolvedProvider) : List (String × String) :=
  amerge
    [("Authorization",
      if jsTruthy p.authToken then "Bearer " ++ p.authToken.getD "" else "")]
    (p.headers.getD [])

/-- The dispatch on `provider.type` performed on a cache miss. -/
def freshHealthCheck (env : HealthEnv) (pc : PortCache) (p : ResolvedProvider) :
    ProviderHealthResult × PortCache :=
  match p.type with
  | ProviderType.cliproxy => checkCLIProxyProviderHealth env pc p
  | _ => (checkApiProviderHealth env p, pc)

/-- `checkProviderHealth`: return the cached record when it is younger
than the TTL, otherwise perform a fresh check and store its result under
the provider's name.  Returns the record, the updated health cache and
the updated port sub-cache. -/
def checkProviderHealth (env : HealthEnv) (cache : List (String × ProviderHealthResult))
    (pc : PortCache) (p : ResolvedProvider) :
    ProviderHealthResult × List (String × ProviderHealthResult) × PortCache :=
  match cache.lookup p.name with
  | some cached =>
      if env.now - cached.checkedAt < CACHE_TTL then (cached, cache, pc)
      else
        let r := freshHealthCheck env pc p
        (r.1, aset cache p.name r.1, r.2)
  | none =>
      let r := freshHealthCheck env pc p
      (r.1, aset cache p.name r.1, r.2)

/-! ## Config editor (src/router/config/writer) -/

/-- Operations of the comment-preserving YAML document model used by the
config editor.  The `yaml` package's `parseDocument`/`toString` and the
`getIn`/`deleteIn` navigation are external collaborators, so they are
abstracted as an arbitrary document type with these operations;
`profileEntryTruthy` models the truthiness of
`doc.getIn(['router', 'profiles'])?.[name]`. -/
structure DocOps (Doc : Type) where
  parse : String → Doc
  profileEntryTruthy : Doc → String → Bool
  deleteProfileEntry : Doc → String → Doc
  render : Doc → String

/-- `deleteRouterProfile`: the filesystem is `none` when `config.yaml`
does not exist, otherwise `some` of its byte content.  Returns the
boolean result together with the (possibly rewritten) file state. -/
def deleteRouterProfile {Doc : Type} (ops : DocOps Doc) (fs : Option String)
    (name : String) : Bool × Option String :=
  match fs with
  | none => (false, none)
  | some content =>
      let doc := ops.parse content
      if ops.profileEntryTruthy doc name then
        (true, some (ops.render (ops.deleteProfileEntry doc name)))
      else
        (false, some content)

/-! ## Claim theorems -/

/-- Routing state where `"foo"` is simultaneously a credential profile
whose settings file is missing and a remote-API provider entry. -/
def sysC1 : Sys :=
  { profiles := some [("foo", "~/.foo/settings.json")]
    providers := some [("foo",
      { base_url := "https://api.example.com", auth_env := "FOO_KEY", adapter := "openai" })]
    fileExists := fun _ => false
    readParse := fun _ => none
    procEnv := fun _ => none
    expandPath := fun s => s }

/-- C1 counterexample: with the settings file of profile `"foo"` missing
and `"foo"` also a remote-API provider, `getProvider` does not fail with
not-found; it falls through and returns a remote-api descriptor. -/
theorem C1_counterexample :
    getProvider sysC1 "foo" ≠ none ∧
    (getProvider sysC1 "foo").map (fun r => r.type) = some ProviderType.api := by
  decide

/-- C1 (amended): for a name that is not a built-in CLIProxy identifier
but is a key of the credential-profile map, if the referenced settings
file is missing or unparsable then the credential-profile strategy yields
nothing and `getProvider` falls through to step 3: it returns the
remote-API descriptor when the name is also a remote-API key, and fails
with not-found only otherwise. -/
theorem getProvider_profile_fallthrough (sys : Sys) (name path : String)
    (h0 : isCLIProxyProvider name = false)
    (h1 : profileLookup sys name = some path)
    (h2 : sys.fileExists (sys.expandPath path) = false ∨
          sys.readParse (sys.expandPath path) = none) :
    getProvider sys name = (providerLookup sys name).map (resolveApiProvider sys name) := by
  have hs : resolveSettingsProfile sys name = none := by
    rcases h2 with h2 | h2
    · simp [resolveSettingsProfile, h1, h2]
    · by_cases hf : sys.fileExists (sys.expandPath path) <;>
        simp [resolveSettingsProfile, h1, h2, hf]
  cases hp : providerLookup sys name <;>
    simp [getProvider, h0, hs, hp]

/-- Witness for the amended C1 theorem at a concrete routing state. -/
theorem getProvider_profile_fallthrough_witness :
    isCLIProxyProvider "foo" = false ∧
    profileLookup sysC1 "foo" = some "~/.foo/settings.json" ∧
    sysC1.fileExists (sysC1.expandPath "~/.foo/settings.json") = false ∧
    getProvider sysC1 "foo" =
      (providerLookup sysC1 "foo").map (resolveApiProvider sysC1 "foo") :=
  ⟨by decide, by decide, by decide,
    getProvider_profile_fallthrough sysC1 "foo" "~/.foo/settings.json" (by decide) (by decide)
      (Or.inl (by decide))⟩

/-- A multiplexer-kind descriptor. -/
def provAgy : ResolvedProvider :=
  { name := "agy"
    type := ProviderType.cliproxy
    adapter := "anthropic"
    baseUrl := "http://127.0.0.1:8317/api/provider/agy/v1" }

/-- Environment where the CLIProxy port probe fails while auth passes. -/
def envC2 : HealthEnv :=
  { now := 100000, portProbe := false, authenticated := true }

/-- C2 counterexample: when the port probe fails, the record's error
string is `"CLIProxy not running"`, not `"multiplexer not running"` as
the claim states. -/
theorem C2_counterexample :
    ((checkCLIProxyProviderHealth envC2 {} provAgy).1).healthy = false ∧
    ((checkCLIProxyProviderHealth envC2 {} provAgy).1).error ≠
      some "multiplexer not running" ∧
    ((checkCLIProxyProviderHealth envC2 {} provAgy).1).error =
      some "CLIProxy not running" := by
  decide

/-- C2 (amended): a fresh CLIProxy-kind health check (empty port
sub-cache) is healthy exactly when both the port probe and the auth check
pass; a failed port probe gives error `"CLIProxy not running"` regardless
of auth status; a passing port probe with failed auth gives
`"Not authenticated"`; when both pass there is no error. -/
theorem checkCLIProxy_health_cases (env : HealthEnv) (p : ResolvedProvider) :
    ((checkCLIProxyProviderHealth env {} p).1).healthy =
      (env.portProbe && env.authenticated) ∧
    (env.portProbe = false →
      ((checkCLIProxyProviderHealth env {} p).1).error = some "CLIProxy not running") ∧
    (env.portProbe = true → env.authenticated = false →
      ((checkCLIProxyProviderHealth env {} p).1).error = some "Not authenticated") ∧
    (env.portProbe = true → env.authenticated = true →
      ((checkCLIProxyProviderHealth env {} p).1).error = none) := by
  cases hp : env.portProbe <;> cases ha : env.authenticated <;>
    simp [checkCLIProxyProviderHealth, hp, ha]

/-- Witness for the amended C2 theorem: port probe passes, auth fails. -/
theorem checkCLIProxy_health_cases_witness :
    ((checkCLIProxyProviderHealth
        { now := 0, portProbe := true, authenticated := false } {} provAgy).1).error =
      some "Not authenticated" :=
  (checkCLIProxy_health_cases
    { now := 0, portProbe := true, authenticated := false } provAgy).2.2.1 rfl rfl

/-- C3: `checkProviderHealth` never returns a cached record whose age
exceeds the 30-second TTL — for such a call it performs the fresh
dispatch and stores the new record under the provider's name, overwriting
any previous one — while a cached record younger than 30 seconds is
returned as-is with caches untouched. -/
theorem checkProviderHealth_ttl (env : HealthEnv)
    (cache : List (String × ProviderHealthResult)) (pc : PortCache)
    (p : ResolvedProvider) (cached : ProviderHealthResult)
    (hc : cache.lookup p.name = some cached) :
    (CACHE_TTL < env.now - cached.checkedAt →
      checkProviderHealth env cache pc p =
        ((freshHealthCheck env pc p).1,
         aset cache p.name (freshHealthCheck env pc p).1,
         (freshHealthCheck env pc p).2)) ∧
    (env.now - cached.checkedAt < CACHE_TTL →
      checkProviderHealth env cache pc p = (cached, cache, pc)) := by
  constructor
  · intro h
    have hlt : ¬ env.now - cached.checkedAt < CACHE_TTL := by omega
    simp [checkProviderHealth, hc, hlt]
  · intro h
    simp [checkProviderHealth, hc, h]

/-- A settings-kind descriptor used by the health-monitor witnesses. -/
def provGlm : ResolvedProvider :=
  { name := "glm"
    type := ProviderType.settings
    adapter := "anthropic"
    baseUrl := "https://api.z.ai/api/anthropic"
    authToken := some "tok123" }

/-- A cached record that is 31 seconds old at `now = 31000`. -/
def recC3 : ProviderHealthResult :=
  { provider := "glm", healthy := true, latency := 1, checkedAt := 0 }

/-- Environment 31 seconds after `recC3` was stored. -/
def envC3 : HealthEnv :=
  { now := 31000, portProbe := false, authenticated := false,
    fetchOutcome := FetchOutcome.success 200 "OK" }

/-- Witness for C3: a 31-second-old cache entry forces a fresh check. -/
theorem checkProviderHealth_ttl_witness :
    [("glm", recC3)].lookup "glm" = some recC3 ∧
    CACHE_TTL < envC3.now - recC3.checkedAt ∧
    checkProviderHealth envC3 [("glm", recC3)] {} provGlm =
      ((freshHealthCheck envC3 {} provGlm).1,
       aset [("glm", recC3)] "glm" (freshHealthCheck envC3 {} provGlm).1,
       (freshHealthCheck envC3 {} provGlm).2) :=
  ⟨by decide, by decide,
    (checkProviderHealth_ttl envC3 [("glm", recC3)] {} provGlm recC3 (by decide)).1
      (by decide)⟩

/-- C4: `deleteRouterProfile` on a missing config file returns `false`
without creating one, and on an existing file whose
`router.profiles` section has no (truthy) entry for the name it returns
`false` and performs no write, leaving the file's bytes unchanged. -/
theorem deleteRouterProfile_absent {Doc : Type} (ops : DocOps Doc) (fs : Option String)
    (name : String) :
    (fs = none → deleteRouterProfile ops fs name = (false, none)) ∧
    (∀ content, fs = some content →
      ops.profileEntryTruthy (ops.parse content) name = false →
      deleteRouterProfile ops fs name = (false, some content)) := by
  constructor
  · intro h
    subst h
    rfl
  · intro content h habs
    subst h
    simp [deleteRouterProfile, habs]

/-- A trivial comment-preserving document model with no profile entries. -/
def opsC4 : DocOps Unit :=
  { parse := fun _ => ()
    profileEntryTruthy := fun _ _ => false
    deleteProfileEntry := fun d _ => d
    render := fun _ => "" }

/-- Witness for C4 on a missing file and on a file without the entry. -/
theorem deleteRouterProfile_absent_witness :
    deleteRouterProfile opsC4 none "glm" = (false, none) ∧
    deleteRouterProfile opsC4 (some "# hand-written comment") "glm" =
      (false, some "# hand-written comment") :=
  ⟨(deleteRouterProfile_absent opsC4 none "glm").1 rfl,
   (deleteRouterProfile_absent opsC4 (some "# hand-written comment") "glm").2
      "# hand-written comment" rfl rfl⟩

/-- C5: an API-provider health check is total and encodes every outcome
in the returned record: the record is healthy exactly for a 2xx response;
a non-2xx response gives an error string that carries the status code and
reason phrase (the status code is a substring of it); a thrown network
failure or timeout gives an unhealthy record carrying the underlying
error message. -/
theorem checkApiProviderHealth_outcomes (env : HealthEnv) (p : ResolvedProvider) :
    ((checkApiProviderHealth env p).healthy =
      (match env.fetchOutcome with
       | FetchOutcome.success status _ => decide (200 ≤ status ∧ status ≤ 299)
       | FetchOutcome.failure _ => false)) ∧
    (∀ status statusText,
      env.fetchOutcome = FetchOutcome.success status statusText →
      ¬ (200 ≤ status ∧ status ≤ 299) →
      (checkApiProviderHealth env p).error =
        some ("HTTP " ++ toString status ++ ": " ++ statusText) ∧
      (toString status).toList <:+:
        ("HTTP " ++ toString status ++ ": " ++ statusText).toList) ∧
    (∀ message, env.fetchOutcome = FetchOutcome.failure message →
      (checkApiProviderHealth env p).healthy = false ∧
      (checkApiProviderHealth env p).error = some message) := by
  refine ⟨?_, ?_, ?_⟩
  · cases hf : env.fetchOutcome with
    | success status statusText =>
        by_cases hok : 200 ≤ status ∧ status ≤ 299 <;>
          simp [checkApiProviderHealth, hf, hok]
    | failure message => simp [checkApiProviderHealth, hf]
  · intro status statusText hf hok
    refine ⟨by simp [checkApiProviderHealth, hf, hok], ?_⟩
    refine ⟨"HTTP ".toList, (": " ++ statusText).toList, ?_⟩
    simp
  · intro message hf
    simp [checkApiProviderHealth, hf]

/-- Environment whose health fetch returns HTTP 500. -/
def envC5 : HealthEnv :=
  { now := 0, portProbe := false, authenticated := false,
    fetchOutcome := FetchOutcome.success 500 "Internal Server Error" }

/-- Environment whose health fetch throws (network failure or timeout). -/
def envC5b : HealthEnv :=
  { now := 0, portProbe := false, authenticated := false,
    fetchOutcome := FetchOutcome.failure "The operation timed out" }

/-- Witness for C5: HTTP 500 and a thrown timeout, both returned as
unhealthy records, never as exceptions. -/
theorem checkApiProviderHealth_outcomes_witness :
    ((checkApiProviderHealth envC5 provGlm).error =
        some ("HTTP " ++ toString 500 ++ ": " ++ "Internal Server Error") ∧
      (toString 500).toList <:+:
        ("HTTP " ++ toString 500 ++ ": " ++ "Internal Server Error").toList) ∧
    ((checkApiProviderHealth envC5b provGlm).healthy = false ∧
      (checkApiProviderHealth envC5b provGlm).error =
        some "The operation timed out") :=
  ⟨(checkApiProviderHealth_outcomes envC5 provGlm).2.1 500 "Internal Server Error"
      rfl (by decide),
   (checkApiProviderHealth_outcomes envC5b provGlm).2.2 "The operation timed out" rfl⟩

/-- C6: the adapter's endpoint equals the reference definition written
from the spec (strip trailing slashes, append `/messages` when the base
already ends in `/v1`, else `/v1/messages`), and the adapter never
introduces a duplicated version-prefix segment: when the base URL does
not already contain `/v1/v1`, the endpoint does not contain `/v1/v1/`. -/
theorem anthropic_endpoint (p : ResolvedProvider) :
    AnthropicAdapter.getEndpoint p = endpointSpec p ∧
    (¬ "/v1/v1".toList <:+: p.baseUrl.toList →
      ¬ "/v1/v1/".toList <:+: (AnthropicAdapter.getEndpoint p).toList) := by
  constructor
  · simp only [AnthropicAdapter.getEndpoint, endpointSpec, getEndpointL,
      specStrip_eq_stripSlashes]
  · intro hb
    exact getEndpointL_no_dup p.baseUrl.toList hb

/-- Descriptor with a trailing slash after a base that already ends in a
path (no version prefix). -/
def provC6 : ResolvedProvider :=
  { name := "glm"
    type := ProviderType.settings
    adapter := "anthropic"
    baseUrl := "https://api.z.ai/api/anthropic/" }

/-- Witness for C6 at a concrete descriptor. -/
theorem anthropic_endpoint_witness :
    AnthropicAdapter.getEndpoint provC6 = endpointSpec provC6 ∧
    ¬ "/v1/v1/".toList <:+: (AnthropicAdapter.getEndpoint provC6).toList :=
  ⟨(anthropic_endpoint provC6).1, (anthropic_endpoint provC6).2 (by decide)⟩

theorem getHeaders_lookup (p : ResolvedProvider) (k : String) :
    (AnthropicAdapter.getHeaders p).lookup k =
      (match (p.headers.getD []).reverse.lookup k with
       | some v => some v
       | none =>
          if k = "Content-Type" then some "application/json"
          else if k = "Authorization" ∧ jsTruthy p.authToken then
            some ("Bearer " ++ p.authToken.getD "")
          else none) := by
  simp only [AnthropicAdapter.getHeaders]
  rw [lookup_amerge]
  cases hk : (p.headers.getD []).reverse.lookup k
  · simp only []
    by_cases ht : jsTruthy p.authToken
    · rw [if_pos ht]
      have hset : aset [("Content-Type", "application/json")] "Authorization"
          ("Bearer " ++ p.authToken.getD "") =
          [("Content-Type", "application/json"),
           ("Authorization", "Bearer " ++ p.authToken.getD "")] := by
        simp [aset]
      rw [hset]
      by_cases hCT : k = "Content-Type"
      · simp [List.lookup, hCT]
      · by_cases hA : k = "Authorization"
        · simp [List.lookup, hCT, hA, ht, beq_false_of_ne]
        · simp [List.lookup, hCT, hA, beq_false_of_ne]
    · rw [if_neg ht]
      by_cases hCT : k = "Content-Type"
      · simp [List.lookup, hCT]
      · simp [List.lookup, hCT, ht, beq_false_of_ne]
  · simp

/-- C7: the adapter's headers mapping always carries a `Content-Type`
entry; when the extra headers do not override it its value is the JSON
content type; it carries a bearer `Authorization` entry exactly when the
descriptor's auth token is set (truthy, i.e. present and non-empty),
absent the extra-header override; and every extra header of the
descriptor wins over the two base entries (for the duplicate-free maps JS
objects produce, `reverse.lookup` is plain lookup). -/
theorem anthropic_headers (p : ResolvedProvider) :
    ((AnthropicAdapter.getHeaders p).lookup "Content-Type").isSome = true ∧
    ((p.headers.getD []).reverse.lookup "Content-Type" = none →
      (AnthropicAdapter.getHeaders p).lookup "Content-Type" = some "application/json") ∧
    ((p.headers.getD []).reverse.lookup "Authorization" = none →
      (AnthropicAdapter.getHeaders p).lookup "Authorization" =
        (if jsTruthy p.authToken then some ("Bearer " ++ p.authToken.getD "") else none)) ∧
    (∀ k v, (p.headers.getD []).reverse.lookup k = some v →
      (AnthropicAdapter.getHeaders p).lookup k = some v) := by
  refine ⟨?_, ?_, ?_, ?_⟩
  · rw [getHeaders_lookup]
    cases hk : (p.headers.getD []).reverse.lookup "Content-Type" <;> simp
  · intro h
    rw [getHeaders_lookup, h]
    simp
  · intro h
    rw [getHeaders_lookup, h]
    by_cases ht : jsTruthy p.authToken <;> simp [ht]
  · intro k v h
    rw [getHeaders_lookup, h]

/-- Descriptor with a truthy token and no extra headers. -/
def provTok : ResolvedProvider :=
  { name := "api1"
    type := ProviderType.api
    adapter := "openai"
    baseUrl := "https://api.example.com"
    authToken := some "tok123" }

/-- Descriptor whose extra headers override `Content-Type`. -/
def provOverride : ResolvedProvider :=
  { name := "api3"
    type := ProviderType.api
    adapter := "openai"
    baseUrl := "https://api.example.com"
    headers := some [("Content-Type", "text/plain")] }

/-- Witness for C7: bearer header present for a set token, JSON
content type without override, override wins with it. -/
theorem anthropic_headers_witness :
    (AnthropicAdapter.getHeaders provTok).lookup "Content-Type" = some "application/json" ∧
    (AnthropicAdapter.getHeaders provTok).lookup "Authorization" =
      (if jsTruthy provTok.authToken then
        some ("Bearer " ++ provTok.authToken.getD "") else none) ∧
    (AnthropicAdapter.getHeaders provOverride).lookup "Content-Type" = some "text/plain" :=
  ⟨(anthropic_headers provTok).2.1 rfl,
   (anthropic_headers provTok).2.2.1 rfl,
   (anthropic_headers provOverride).2.2.2 "Content-Type" "text/plain" rfl⟩

/-- Settings JSON of the C8 scenario. -/
def zaiJson : SettingsJson :=
  { env := some
      { anthropicBaseUrl := some "https://api.z.ai/api/anthropic"
        anthropicAuthToken := some "tok123" } }

/-- C8: resolving a credential-profile name whose settings file parses to
the scenario's env object yields the file's base URL and auth token, and
any settings file without a base-URL field resolves to the default public
base URL. -/
theorem resolveSettingsProfile_extracts (sys : Sys) (name path : String)
    (h1 : profileLookup sys name = some path)
    (h2 : sys.fileExists (sys.expandPath path) = true) :
    (sys.readParse (sys.expandPath path) = some zaiJson →
      resolveSettingsProfile sys name = some
        { name := name, type := ProviderType.settings, adapter := "anthropic",
          baseUrl := "https://api.z.ai/api/anthropic", authToken := some "tok123" }) ∧
    (∀ parsed, sys.readParse (sys.expandPath path) = some parsed →
      (parsed.env.getD {}).anthropicBaseUrl = none →
      (resolveSettingsProfile sys name).map (fun r => r.baseUrl) =
        some "https://api.anthropic.com/v1") := by
  constructor
  · intro h3
    simp [resolveSettingsProfile, h1, h2, h3, zaiJson, jsOr]
  · intro parsed h3 h4
    simp [resolveSettingsProfile, h1, h2, h3, jsOr, h4]

/-- Routing state for the C8 scenario. -/
def sysC8 : Sys :=
  { profiles := some [("glm", "~/.glm/settings.json")]
    providers := none
    fileExists := fun _ => true
    readParse := fun _ => some zaiJson
    procEnv := fun _ => none
    expandPath := fun s => s }

/-- Routing state whose settings file has no base-URL field. -/
def sysC8b : Sys :=
  { profiles := some [("glm", "~/.glm/settings.json")]
    providers := none
    fileExists := fun _ => true
    readParse := fun _ => some { env := some { anthropicAuthToken := some "t" } }
    procEnv := fun _ => none
    expandPath := fun s => s }

/-- Witness for C8 at the scenario's state and at a no-base-URL state. -/
theorem resolveSettingsProfile_extracts_witness :
    resolveSettingsProfile sysC8 "glm" = some
      { name := "glm", type := ProviderType.settings, adapter := "anthropic",
        baseUrl := "https://api.z.ai/api/anthropic", authToken := some "tok123" } ∧
    (resolveSettingsProfile sysC8b "glm").map (fun r => r.baseUrl) =
      some "https://api.anthropic.com/v1" :=
  ⟨(resolveSettingsProfile_extracts sysC8 "glm" "~/.glm/settings.json" rfl rfl).1 rfl,
   (resolveSettingsProfile_extracts sysC8b "glm" "~/.glm/settings.json" rfl rfl).2
      { env := some { anthropicAuthToken := some "t" } } rfl rfl⟩

/-- Routing state with a credential profile whose settings file exists
but does not parse. -/
def sysC9 : Sys :=
  { profiles := some [("bad", "pb")]
    providers := none
    fileExists := fun _ => true
    readParse := fun _ => none
    procEnv := fun _ => none
    expandPath := fun s => s }

/-- C9 counterexample: the settings file of profile `"bad"` exists, yet
the name is omitted from `getAllProviders` because the file is
unparsable — refuting that a credential-profile name is omitted only when
its file is missing. -/
theorem C9_counterexample :
    sysC9.fileExists (sysC9.expandPath "pb") = true ∧
    profileLookup sysC9 "bad" = some "pb" ∧
    ((getAllProviders sysC9).map (fun r => r.name)).contains "bad" = false := by
  decide

theorem resolveSettingsProfile_name (sys : Sys) (n : String) (r : ResolvedProvider)
    (h : resolveSettingsProfile sys n = some r) : r.name = n := by
  rcases hpl : profileLookup sys n with _ | path
  · simp [resolveSettingsProfile, hpl] at h
  · by_cases hf : sys.fileExists (sys.expandPath path)
    · rcases hrp : sys.readParse (sys.expandPath path) with _ | parsed
      · simp [resolveSettingsProfile, hpl, hf, hrp] at h
      · simp only [resolveSettingsProfile, hpl, hf, hrp, if_true, Option.some.injEq] at h
        subst h
        rfl
    · simp [resolveSettingsProfile, hpl, hf] at h

/-- C9 (amended): a credential-profile name appears in the aggregate
enumeration exactly when `resolveSettingsProfile` succeeds for it — the
file must both exist and parse; when it yields nothing the name is
silently omitted (no settings-kind entry carries it), never surfaced as
an error. -/
theorem getAllProviders_settings (sys : Sys) (m : List (String × String)) (name : String)
    (hm : sys.profiles = some m) (hmem : name ∈ m.map (fun kv => kv.1)) :
    (∀ r, resolveSettingsProfile sys name = some r → r ∈ getAllProviders sys) ∧
    (resolveSettingsProfile sys name = none →
      ∀ r, r ∈ getAllProviders sys → r.type = ProviderType.settings → r.name ≠ name) := by
  have hga : getAllProviders sys =
      CLIPROXY_PROVIDER_LIST.map resolveCLIProxyProvider ++
      (m.map (fun kv => kv.1)).filterMap (fun n => resolveSettingsProfile sys n) ++
      (match sys.providers with
       | some mp => mp.map (fun kv => resolveApiProvider sys kv.1 kv.2)
       | none => []) := by
    simp [getAllProviders, hm]
  constructor
  · intro r hr
    rw [hga]
    exact List.mem_append.mpr (Or.inl (List.mem_append.mpr
      (Or.inr (List.mem_filterMap.mpr ⟨name, hmem, hr⟩))))
  · intro hnone r hr ht
    rw [hga] at hr
    rcases List.mem_append.mp hr with h1 | h2
    · rcases List.mem_append.mp h1 with hcli | hset
      · obtain ⟨nn, hnn, hr2⟩ := List.mem_map.mp hcli
        rw [← hr2] at ht
        simp [resolveCLIProxyProvider] at ht
      · obtain ⟨nn, hnn, hres⟩ := List.mem_filterMap.mp hset
        have hname := resolveSettingsProfile_name sys nn r hres
        intro heq
        rw [hname] at heq
        rw [heq] at hres
        rw [hnone] at hres
        exact Option.noConfusion hres
    · rcases hps : sys.providers with _ | mp
      · rw [hps] at h2
        simp at h2
      · rw [hps] at h2
        obtain ⟨kv, hkv, hr2⟩ := List.mem_map.mp h2
        rw [← hr2] at ht
        simp [resolveApiProvider] at ht

/-- Routing state with one resolvable credential profile. -/
def sysC9b : Sys :=
  { profiles := some [("glm", "pg")]
    providers := none
    fileExists := fun _ => true
    readParse := fun _ => some zaiJson
    procEnv := fun _ => none
    expandPath := fun s => s }

/-- The descriptor that profile `"glm"` of `sysC9b` resolves to. -/
def rGlm : ResolvedProvider :=
  { name := "glm"
    type := ProviderType.settings
    adapter := "anthropic"
    baseUrl := "https://api.z.ai/api/anthropic"
    authToken := some "tok123" }

/-- Witness for the amended C9 theorem: a resolvable profile appears in
the aggregate list. -/
theorem getAllProviders_settings_witness :
    rGlm ∈ getAllProviders sysC9b :=
  (getAllProviders_settings sysC9b [("glm", "pg")] "glm" rfl (by decide)).1 rGlm (by decide)

/-- C10: the health check's request headers always carry an
`Authorization` entry: a bearer value when the auth token is set (truthy)
and the empty string when it is not — present-but-empty, unlike the
adapter's headers function, which omits the entry entirely for an unset
token — unless the descriptor's extra headers override the entry. -/
theorem health_auth_header (p : ResolvedProvider) :
    ((healthRequestHeaders p).lookup "Authorization").isSome = true ∧
    ((p.headers.getD []).reverse.lookup "Authorization" = none →
      (healthRequestHeaders p).lookup "Authorization" =
        some (if jsTruthy p.authToken then "Bearer " ++ p.authToken.getD "" else "")) ∧
    (p.authToken = none → p.headers = none →
      (AnthropicAdapter.getHeaders p).lookup "Authorization" = none) := by
  have hl : (healthRequestHeaders p).lookup "Authorization" =
      (match (p.headers.getD []).reverse.lookup "Authorization" with
       | some v => some v
       | none =>
          some (if jsTruthy p.authToken then "Bearer " ++ p.authToken.getD "" else "")) := by
    simp only [healthRequestHeaders]
    rw [lookup_amerge]
    cases hk : (p.headers.getD []).reverse.lookup "Authorization" <;>
      simp [List.lookup]
  refine ⟨?_, ?_, ?_⟩
  · rw [hl]
    cases hk : (p.headers.getD []).reverse.lookup "Authorization" <;> simp
  · intro h
    rw [hl, h]
  · intro ha hh
    rw [getHeaders_lookup]
    simp [ha, hh, jsTruthy]

/-- Descriptor without an auth token and without extra headers. -/
def provNoTok : ResolvedProvider :=
  { name := "api2"
    type := ProviderType.api
    adapter := "openai"
    baseUrl := "https://api.example.com" }

/-- Witness for C10: token set gives a bearer value, token unset keeps
the entry with the empty string while the adapter omits it. -/
theorem health_auth_header_witness :
    (healthRequestHeaders provTok).lookup "Authorization" =
      some (if jsTruthy provTok.authToken then
        "Bearer " ++ provTok.authToken.getD "" else "") ∧
    (healthRequestHeaders provNoTok).lookup "Authorization" =
      some (if jsTruthy provNoTok.authToken then
        "Bearer " ++ provNoTok.authToken.getD "" else "") ∧
    (AnthropicAdapter.getHeaders provNoTok).lookup "Authorization" = none :=
  ⟨(health_auth_header provTok).2.1 rfl,
   (health_auth_header provNoTok).2.1 rfl,
   (health_auth_header provNoTok).2.2 rfl rfl⟩
